import Mathlib

/-!
Verification of the environment-scoped host resolution and allow-list
validation subsystem of brave-core.

Embedded code:
* `components/brave_search/common/brave_search_utils.cc`:
  the constant `kVettedHosts` and the predicate `IsAllowedHost`.
* `components/brave_ads/.../hosts/geo_url_host_unittest.cc` pins the
  geo-ads host values; the resolver itself (`url_host_util.cc`) is not in
  the sources, so it is modelled from the spec below.

A `GURL` is modelled as its parsed, canonicalized components, the form in
which `IsAllowedHost` inspects it: validity flag, scheme, host, and the
remaining components (port, path, query, fragment) that the source never
reads.  Canonicalization performed by the GURL parser (ASCII lowercasing
of scheme and host) is modelled separately on a `RawURL`.
-/

namespace BraveSearch

/-- A parsed URL as seen by `IsAllowedHost`: the components of a GURL
after parsing and canonicalization. -/
structure GURL where
  is_valid : Bool
  scheme : String
  host : String
  port : String
  path : String
  query : String
  ref : String
deriving DecidableEq, Repr

/-- The constant `kVettedHosts` from `brave_search_utils.cc`: the fixed,
sorted list of vetted host names. -/
def kVettedHosts : List String :=
  [ "safesearch.brave.com",
    "safesearch.brave.software",
    "safesearch.bravesoftware.com",
    "search-dev-local.brave.com",
    "search.brave.com",
    "search.brave.software",
    "search.bravesoftware.com" ]

/-- `IsAllowedHost` from `brave_search_utils.cc`: false when the URL is
invalid or its scheme is not https, otherwise exact membership of the
host component in `kVettedHosts`. -/
def IsAllowedHost (url : GURL) : Bool :=
  if !url.is_valid || url.scheme != "https" then
    false
  else
    kVettedHosts.contains url.host

/-- C1.  For every parsed URL, `IsAllowedHost` returns true iff the URL is
valid, its scheme is https, and its host is one of exactly the seven
vetted literal strings; for every other host string it returns false. -/
theorem isAllowedHost_iff_vetted (url : GURL) :
    IsAllowedHost url = true ↔
      url.is_valid = true ∧ url.scheme = "https" ∧
        (url.host = "search.brave.com" ∨
         url.host = "search.brave.software" ∨
         url.host = "search.bravesoftware.com" ∨
         url.host = "safesearch.brave.com" ∨
         url.host = "safesearch.brave.software" ∨
         url.host = "safesearch.bravesoftware.com" ∨
         url.host = "search-dev-local.brave.com") := by
  cases hv : url.is_valid
  · simp [IsAllowedHost, hv]
  · simp [IsAllowedHost, kVettedHosts, hv, List.elem_iff,
      List.mem_cons, List.mem_singleton]
    tauto

/-- C2.  Every URL whose scheme is not https, including a vetted host
reached over http, is rejected by `IsAllowedHost`. -/
theorem not_https_rejected (url : GURL) (h : url.scheme ≠ "https") :
    IsAllowedHost url = false := by
  simp [IsAllowedHost, h]

/-- The URL http://search.brave.com, a vetted host over plain http. -/
def httpSearchBrave : GURL :=
  { is_valid := true, scheme := "http", host := "search.brave.com",
    port := "", path := "/", query := "", ref := "" }

/-- Witness for C2: http://search.brave.com is rejected. -/
theorem not_https_rejected_witness : IsAllowedHost httpSearchBrave = false :=
  not_https_rejected httpSearchBrave (by decide)

/-- The URL https://search.brave.com/search?q=x. -/
def searchWithQuery : GURL :=
  { is_valid := true, scheme := "https", host := "search.brave.com",
    port := "", path := "/search", query := "q=x", ref := "" }

/-- The URL https://search.brave.com with no path or query. -/
def searchBare : GURL :=
  { is_valid := true, scheme := "https", host := "search.brave.com",
    port := "", path := "", query := "", ref := "" }

/-- The URL https://search.brave.com.attacker.net. -/
def attackerSuffix : GURL :=
  { is_valid := true, scheme := "https", host := "search.brave.com.attacker.net",
    port := "", path := "/", query := "", ref := "" }

/-- C3.  `IsAllowedHost` reads only validity, scheme and exact host: two
URLs agreeing on those agree on the verdict regardless of port, path,
query and fragment; https://search.brave.com/search?q=x is allowed while
https://search.brave.com.attacker.net is rejected (no suffix matching). -/
theorem isAllowedHost_host_only (u v : GURL)
    (hval : u.is_valid = v.is_valid) (hs : u.scheme = v.scheme)
    (hh : u.host = v.host) :
    IsAllowedHost u = IsAllowedHost v ∧
      IsAllowedHost searchWithQuery = true ∧
      IsAllowedHost attackerSuffix = false := by
  refine ⟨?_, by decide, by decide⟩
  simp [IsAllowedHost, hval, hs, hh]

/-- Witness for C3: the query URL and the bare URL share validity, scheme
and host and get the same verdict. -/
theorem isAllowedHost_host_only_witness :
    IsAllowedHost searchWithQuery = IsAllowedHost searchBare ∧
      IsAllowedHost searchWithQuery = true ∧
      IsAllowedHost attackerSuffix = false :=
  isAllowedHost_host_only searchWithQuery searchBare rfl rfl rfl

/-- C4.  `IsAllowedHost` is total: it returns a boolean for every URL,
and for an invalid URL that boolean is false. -/
theorem isAllowedHost_total_invalid_false (u : GURL)
    (h : u.is_valid = false) :
    IsAllowedHost u = false ∧
      ∀ v : GURL, IsAllowedHost v = true ∨ IsAllowedHost v = false := by
  refine ⟨by simp [IsAllowedHost, h], fun v => ?_⟩
  cases hb : IsAllowedHost v
  · exact Or.inr rfl
  · exact Or.inl rfl

/-- An invalid (unparseable) URL: the parser left the validity flag
false. -/
def invalidURL : GURL :=
  { is_valid := false, scheme := "", host := "", port := "", path := "",
    query := "", ref := "" }

/-- Witness for C4: the invalid URL is rejected. -/
theorem isAllowedHost_total_invalid_false_witness :
    IsAllowedHost invalidURL = false ∧
      ∀ v : GURL, IsAllowedHost v = true ∨ IsAllowedHost v = false :=
  isAllowedHost_total_invalid_false invalidURL rfl

/-- C9.  `IsAllowedHost` is deterministic and side-effect free: it is a
pure function of the URL (the embedding carries no other state), so any
two calls on identical inputs return identical booleans. -/
theorem isAllowedHost_deterministic (u v : GURL) (h : u = v) :
    IsAllowedHost u = IsAllowedHost v := by
  rw [h]

/-- Witness for C9: two calls at http://search.brave.com agree. -/
theorem isAllowedHost_deterministic_witness :
    IsAllowedHost httpSearchBrave = IsAllowedHost httpSearchBrave :=
  isAllowedHost_deterministic httpSearchBrave httpSearchBrave rfl

/-- ASCII lowercasing of a single character, identity elsewhere. -/
def asciiLowerChar (c : Char) : Char :=
  if 'A' ≤ c ∧ c ≤ 'Z' then Char.ofNat (c.toNat + 32) else c

/-- ASCII lowercasing of a string, character by character. -/
def asciiLower (s : String) : String :=
  String.mk (s.data.map asciiLowerChar)

/-- A URL as written, before parsing: scheme and host may carry uppercase
ASCII letters. -/
structure RawURL where
  is_valid : Bool
  scheme : String
  host : String
  port : String
  path : String
  query : String
  ref : String
deriving DecidableEq, Repr

/-- Modelled from the spec: the GURL parser (the url library, not under
the sources here) canonicalizes the scheme and host components to ASCII
lowercase before `IsAllowedHost` inspects them; the other components are
kept as written. -/
def canonicalize (r : RawURL) : GURL :=
  { is_valid := r.is_valid, scheme := asciiLower r.scheme,
    host := asciiLower r.host, port := r.port, path := r.path,
    query := r.query, ref := r.ref }

/-- The URL HTTPS://SEARCH.BRAVE.COM as written, before parsing. -/
def upperSearchBrave : RawURL :=
  { is_valid := true, scheme := "HTTPS", host := "SEARCH.BRAVE.COM",
    port := "", path := "", query := "", ref := "" }

/-- C10.  A URL written with uppercase scheme or host letters is
canonicalized to lowercase by the parse, so the case-sensitive membership
test applies to the lowercased host: the parsed URL is accepted exactly
when it is valid, its lowercased scheme is https and its lowercased host
is in the vetted set; in particular HTTPS://SEARCH.BRAVE.COM is
accepted. -/
theorem isAllowedHost_canonicalized (r : RawURL) :
    (IsAllowedHost (canonicalize r) = true ↔
      r.is_valid = true ∧ asciiLower r.scheme = "https" ∧
        asciiLower r.host ∈ kVettedHosts) ∧
      IsAllowedHost (canonicalize upperSearchBrave) = true := by
  refine ⟨?_, by decide⟩
  cases hv : r.is_valid <;>
    simp [IsAllowedHost, canonicalize, hv, List.elem_iff]

end BraveSearch

namespace BraveAds

/-- The deployment environment, after `mojom::EnvironmentType`. -/
inductive EnvironmentType where
  | kProduction
  | kStaging
  | kDevelopment
deriving DecidableEq, Repr

/-- The fatal, developer-facing error kind of the spec. -/
inductive ConfigError where
  | configurationError
deriving DecidableEq, Repr

deriving instance DecidableEq for Except

/-- Modelled from the spec: the ServiceHostTable, an immutable mapping
from service identifier and EnvironmentType to a literal host string
(`url_host_util.cc` is not under the sources; only its unit test is).
The spec gives the geo-ads-host entries for Production and Staging,
matching `geo_url_host_unittest.cc`; the Development entry follows the
repository-wide brave.software domain pattern, keeping the three entries
pairwise distinct as the spec asserts.  Unknown identifiers have no
entry. -/
def serviceHostTable (serviceId : String) (env : EnvironmentType) :
    Option String :=
  if serviceId = "geo-ads-host" then
    some (match env with
      | .kProduction => "https://geo.ads.brave.com"
      | .kStaging => "https://geo.ads.bravesoftware.com"
      | .kDevelopment => "https://geo.ads.brave.software")
  else
    none

/-- Modelled from the spec: `resolveHost` reads the process-wide
EnvironmentType (none when not yet initialized) and looks the service
identifier up in the ServiceHostTable, failing with ConfigurationError
when the environment is uninitialized or the identifier is unknown. -/
def resolveHost (envState : Option EnvironmentType) (serviceId : String) :
    Except ConfigError String :=
  match envState with
  | none => .error .configurationError
  | some env =>
      match serviceHostTable serviceId env with
      | none => .error .configurationError
      | some host => .ok host

/-- C5.  Under Production the geo-ads host resolves to exactly
https://geo.ads.brave.com, and under Staging to exactly
https://geo.ads.bravesoftware.com. -/
theorem resolveHost_geo_production_staging :
    resolveHost (some .kProduction) "geo-ads-host" =
        .ok "https://geo.ads.brave.com" ∧
      resolveHost (some .kStaging) "geo-ads-host" =
        .ok "https://geo.ads.bravesoftware.com" := by
  constructor <;> rfl

/-- C6.  For all three environments the geo-ads host resolves to a
non-empty string prefixed with https://, the three results are pairwise
distinct, and the result under a fixed environment is stable across
repeated calls. -/
theorem resolveHost_geo_wellformed :
    (∀ env : EnvironmentType, ∃ s : String,
        resolveHost (some env) "geo-ads-host" = .ok s ∧
          s ≠ "" ∧ s.take 8 = "https://") ∧
      (resolveHost (some .kProduction) "geo-ads-host" ≠
          resolveHost (some .kStaging) "geo-ads-host" ∧
        resolveHost (some .kProduction) "geo-ads-host" ≠
          resolveHost (some .kDevelopment) "geo-ads-host" ∧
        resolveHost (some .kStaging) "geo-ads-host" ≠
          resolveHost (some .kDevelopment) "geo-ads-host") ∧
      ∀ env : EnvironmentType,
        resolveHost (some env) "geo-ads-host" =
          resolveHost (some env) "geo-ads-host" := by
  refine ⟨fun env => ?_, by refine ⟨by decide, by decide, by decide⟩,
    fun env => rfl⟩
  cases env
  · exact ⟨"https://geo.ads.brave.com", rfl, by decide, by decide⟩
  · exact ⟨"https://geo.ads.bravesoftware.com", rfl, by decide, by decide⟩
  · exact ⟨"https://geo.ads.brave.software", rfl, by decide, by decide⟩

/-- C7.  For every environment, resolving a service identifier that is
not in the ServiceHostTable fails with ConfigurationError and never
returns a host string. -/
theorem resolveHost_unknown_service (env : EnvironmentType)
    (serviceId : String) (h : serviceId ≠ "geo-ads-host") :
    resolveHost (some env) serviceId = .error .configurationError := by
  simp [resolveHost, serviceHostTable, h]

/-- Witness for C7: the identifier unknown-service fails under
Production. -/
theorem resolveHost_unknown_service_witness :
    resolveHost (some .kProduction) "unknown-service" =
      .error .configurationError :=
  resolveHost_unknown_service .kProduction "unknown-service" (by decide)

/-- C8.  Resolving any service identifier before the process-wide
EnvironmentType is initialized fails with ConfigurationError rather than
silently behaving as Production. -/
theorem resolveHost_uninitialized (serviceId : String) :
    resolveHost none serviceId = .error .configurationError ∧
      resolveHost none "geo-ads-host" ≠
        resolveHost (some .kProduction) "geo-ads-host" := by
  exact ⟨rfl, by decide⟩

end BraveAds
